import Mathlib

/-!
Verification of the trial scheduling and execution engine of optuna
(src/optuna/study.py), via a shallow embedding in Lean 4.

The embedding follows the source file closely:
- Python floats are modelled symbolically (the engine performs no float
  arithmetic, only conversion via float(...) and a math.isnan check).
- Exceptions raised by the objective are modelled as values carrying the
  information the engine inspects: whether the exception is the pruning
  signal (structs.TrialPruned) and a message; the caller-supplied catch
  filter becomes a Boolean predicate on exceptions (isinstance against
  the catch tuple).
- Calls into the Storage backend are recorded as an explicit trace, so
  that ordering properties of the persistence calls can be stated.
-/

namespace Optuna

/-- A Python float, modelled symbolically.  The engine never computes with
floats; it only converts values with float(...) and tests math.isnan, so a
four-way symbolic representation (finite rational, the two infinities, NaN)
is faithful. -/
inductive PyFloat where
  | fin : Rat → PyFloat
  | inf : PyFloat
  | neginf : PyFloat
  | nan : PyFloat
deriving DecidableEq, Repr

/-- math.isnan. -/
def PyFloat.isNan : PyFloat → Bool
  | .nan => true
  | _ => false

/-- Whether the float is finite (neither an infinity nor NaN).  The source
never tests this; it appears only in claim statements. -/
def PyFloat.isFinite : PyFloat → Bool
  | .fin _ => true
  | _ => false

/-- A Python value that the objective function may return. -/
inductive PyValue where
  | float : PyFloat → PyValue
  | int : Int → PyValue
  | strNum : PyFloat → PyValue
  | strBad : String → PyValue
  | none : PyValue
  | other : String → PyValue
deriving DecidableEq, Repr

/-- The float(result) conversion in Study._run_trial: succeeds on floats,
ints and float-parseable strings, raises ValueError or TypeError (here:
Option.none) otherwise. -/
def pyFloatCast : PyValue → Option PyFloat
  | .float f => some f
  | .int n => some (.fin (n : Rat))
  | .strNum f => some f
  | .strBad _ => Option.none
  | .none => Option.none
  | .other _ => Option.none

/-- Terminal and running trial states (optuna.structs.TrialState). -/
inductive TrialState where
  | running : TrialState
  | complete : TrialState
  | pruned : TrialState
  | fail : TrialState
deriving DecidableEq, Repr

/-- An exception raised by the objective, carrying exactly the data the
engine inspects: whether it is the pruning signal structs.TrialPruned, and
its textual form (str/repr). -/
structure Exc where
  pruned : Bool
  msg : String
deriving DecidableEq, Repr

/-- The outcome of invoking the objective once: a returned value or a
raised exception. -/
inductive ObjResult where
  | ret : PyValue → ObjResult
  | raise : Exc → ObjResult
deriving DecidableEq, Repr

/-- One call into the Storage backend, as issued by Study._run_trial after
the trial id has been allocated.  reportValue stands for
trial.report(result), which persists the final objective value on the
trial. -/
inductive StorageCall where
  | setTrialState : Nat → TrialState → StorageCall
  | setTrialSystemAttr : Nat → String → String → StorageCall
  | reportValue : Nat → PyFloat → StorageCall
deriving DecidableEq, Repr

/-- The failure message formatted when the objective raised an exception in
the catch filter. -/
def failMsgExc (e : Exc) : String :=
  "Setting trial status as FAIL because of the following error: " ++ e.msg

/-- The failure message formatted when the returned value cannot be casted
to float. -/
def failMsgCast (v : PyValue) : String :=
  "Setting trial status as FAIL because the returned value from the objective function cannot be casted to float. Returned value is: " ++ reprStr v

/-- The failure message formatted when the objective returned NaN. -/
def failMsgNan : String :=
  "Setting trial status as FAIL because the objective function returned nan."

/-- Study._run_trial, given the already-allocated trial id and the outcome
of the single objective invocation.  Returns the terminal state of the
returned Trial handle together with the trace of Storage calls it made, or
propagates the exception (Except.error) when the objective raised an
exception that is neither the pruning signal nor matched by the catch
filter.  The trace order mirrors the source line by line. -/
def runTrial (trialId : Nat) (catchFilter : Exc → Bool) (obj : ObjResult) :
    Except Exc (TrialState × List StorageCall) :=
  match obj with
  | .raise e =>
    if e.pruned then
      .ok (.pruned, [.setTrialState trialId .pruned])
    else if catchFilter e then
      .ok (.fail,
        [.setTrialState trialId .fail,
         .setTrialSystemAttr trialId "fail_reason" (failMsgExc e)])
    else
      .error e
  | .ret v =>
    match pyFloatCast v with
    | Option.none =>
      .ok (.fail,
        [.setTrialState trialId .fail,
         .setTrialSystemAttr trialId "fail_reason" (failMsgCast v)])
    | some f =>
      if f.isNan then
        .ok (.fail,
          [.setTrialState trialId .fail,
           .setTrialSystemAttr trialId "fail_reason" failMsgNan])
      else
        .ok (.complete,
          [.reportValue trialId f,
           .setTrialState trialId .complete])

/-- The terminal state recorded for the trial, when _run_trial returned
normally. -/
def resultState (r : Except Exc (TrialState × List StorageCall)) : Option TrialState :=
  match r with
  | .ok (s, _) => some s
  | .error _ => Option.none

/-- The Storage-call trace of a normal _run_trial return. -/
def resultCalls (r : Except Exc (TrialState × List StorageCall)) : List StorageCall :=
  match r with
  | .ok (_, calls) => calls
  | .error _ => []

/-- Whether _run_trial returned (rather than propagated an exception). -/
def resultReturned (r : Except Exc (TrialState × List StorageCall)) : Bool :=
  match r with
  | .ok _ => true
  | .error _ => false

/-- The value stored for the trial (via trial.report) in a Storage-call
trace, if any. -/
def storedValue (trialId : Nat) (calls : List StorageCall) : Option PyFloat :=
  calls.findSome? fun c =>
    match c with
    | .reportValue t f => if t = trialId then some f else Option.none
    | _ => Option.none

/-- Positions in a trace at which a fail_reason system attribute is set. -/
def failReasonPositions (calls : List StorageCall) : List Nat :=
  (List.range calls.length).filter fun i =>
    match calls.get? i with
    | some (.setTrialSystemAttr _ k _) => k = "fail_reason"
    | _ => false

/-- Positions in a trace at which a FAIL state transition is persisted. -/
def failStatePositions (calls : List StorageCall) : List Nat :=
  (List.range calls.length).filter fun i =>
    match calls.get? i with
    | some (.setTrialState _ s) => s = .fail
    | _ => false

/-- The ordering property claimed of the trace: no fail_reason attribute
call occurs after a FAIL state-transition call. -/
def noFailReasonAfterFailState (calls : List StorageCall) : Bool :=
  (failReasonPositions calls).all fun i =>
    (failStatePositions calls).all fun j => i ≤ j

/-! ## Storage trial-id allocation

Modelled from the spec: the Storage backend (not part of src/) provides
atomic trial-id allocation scoped to a study; each create_new_trial_id call
returns a fresh identifier.  We model it as a counter: the id returned is
the counter value and the counter increments. -/

/-- Modelled from the spec: Storage.create_new_trial_id on a storage whose
next free id is the given counter; returns the allocated id and the new
counter. -/
def createNewTrialId (nextId : Nat) : Nat × Nat :=
  (nextId, nextId + 1)

/-- The ids produced by n successive create_new_trial_id calls starting
from a given counter (the order in which workers interleave their calls
does not matter: each call atomically takes the current counter). -/
def allocatedIds (nextId : Nat) : Nat → List Nat
  | 0 => []
  | n + 1 =>
    let (i, next) := createNewTrialId nextId
    i :: allocatedIds next n

/-! ## Sequential scheduler (Study._optimize_sequential)

The loop state is the trial counter i_trial; elapsed wall time at the k-th
stop-condition check (k trials having run so far) is supplied as a function
of k, since the embedding has no clock.  The claims considered here all fix
a trial-count limit, so the loop is modelled for n_trials = some N (with
n_trials = None and timeout = None the source loop never terminates by
design). -/

/-- Which stop condition broke the sequential loop. -/
inductive StopReason where
  | countLimit : StopReason
  | timeLimit : StopReason
deriving DecidableEq, Repr

/-- The loop body of Study._optimize_sequential with n_trials = some
nTrials, carried by the remaining trial budget (remaining =
n_trials - i_trial, so the i_trial >= n_trials check is remaining = 0).
Each iteration checks the trial-count limit first, then (for a non-None
timeout) whether elapsed wall time has reached the timeout, and otherwise
runs one trial.  Returns the number of trials run and the condition that
stopped the loop.  ran counts completed _run_trial calls; elapsed ran is
the wall time observed at the check following those calls. -/
def seqLoop (timeout : Option Rat) (elapsed : Nat → Rat) :
    Nat → Nat → Nat × StopReason
  | 0, ran => (ran, .countLimit)
  | remaining + 1, ran =>
    match timeout with
    | some t =>
      if elapsed ran ≥ t then
        (ran, .timeLimit)
      else
        seqLoop timeout elapsed remaining (ran + 1)
    | Option.none =>
      seqLoop timeout elapsed remaining (ran + 1)

/-- Study._optimize_sequential with n_trials = some nTrials: trials run and
stop reason. -/
def optimizeSequential (nTrials : Nat) (timeout : Option Rat)
    (elapsed : Nat → Rat) : Nat × StopReason :=
  seqLoop timeout elapsed nTrials 0

/-! ## Parallel scheduler (Study._optimize_parallel)

The coordinator enqueues one boolean token per trial: it seeds the queue
with one True token per worker, then tops up one token at a time until the
enqueued count reaches the trial limit (the queue-full branch only sleeps
and retries, which does not change the count, so it is not modelled).  Each
True token dequeued by a worker triggers exactly one _run_trial call. -/

/-- Resolution of the n_jobs argument: the sentinel -1 becomes the CPU
count; other values are taken as given (the source passes them to
ThreadPool unchanged). -/
def resolveNJobs (nJobs : Int) (cpuCount : Nat) : Int :=
  if nJobs = -1 then (cpuCount : Int) else nJobs

/-- The body of the coordinator top-up loop, carried by the remaining
token budget (nTrials - nEnqueued, so the n_enqueued_trials >= n_trials
check is remaining = 0): each iteration enqueues one more True token (the
queue-full branch only sleeps and retries, leaving the count unchanged). -/
def coordTopUp : Nat → Nat → Nat
  | 0, nEnqueued => nEnqueued
  | remaining + 1, nEnqueued => coordTopUp remaining (nEnqueued + 1)

/-- The coordinator top-up loop with timeout = None: starting from
nEnqueued already-enqueued tokens it enqueues one more True token per
iteration until nEnqueued >= nTrials, and returns the final number of
enqueued True tokens. -/
def coordLoop (nTrials nEnqueued : Nat) : Nat :=
  coordTopUp (nTrials - nEnqueued) nEnqueued

/-- The worker-count / trial-count bookkeeping of Study._optimize_parallel
for a run with a trial-count limit and no timeout: resolves the -1
sentinel, clamps n_jobs down to n_trials, returns early when n_trials = 0,
and otherwise seeds n_jobs tokens and tops up to the limit.  Returns the
resolved worker count and the total number of True tokens enqueued (the
seed tokens plus the additionally admitted tokens), each of which triggers
exactly one trial. -/
def optimizeParallel (nJobs : Int) (cpuCount : Nat) (nTrials : Nat) :
    Nat × Nat :=
  let j0 := resolveNJobs nJobs cpuCount
  let j := min j0 (nTrials : Int)
  if nTrials = 0 then
    (j.toNat, 0)
  else
    let seeds := j.toNat
    (seeds, coordLoop nTrials seeds)

/-! ## Study construction (Study.__init__) -/

/-- optuna.structs.StudyTask, as far as direction handling needs it. -/
inductive StudyTask where
  | minimize : StudyTask
  | maximize : StudyTask
deriving DecidableEq, Repr

/-- The if/elif/else chain of Study.__init__ mapping the direction string
to a StudyTask, raising ValueError on any other string. -/
def parseDirection (direction : String) : Except String StudyTask :=
  if direction = "minimize" then
    .ok .minimize
  else if direction = "maximize" then
    .ok .maximize
  else
    .error "Please set either minimize or maximize to direction."

/-- The direction validation in Study.__init__: parse the direction string,
then reject MAXIMIZE outright with a second ValueError.  Returns the stored
task on success, the ValueError message otherwise.  Construction runs no
trial: trials only ever run inside optimize. -/
def studyInitDirection (studyName : String) (direction : String) :
    Except String StudyTask :=
  match parseDirection direction with
  | .error m => .error m
  | .ok d =>
    if d = .maximize then
      .error ("Optimization direction of study " ++ studyName ++
        " is set to MAXIMIZE. Currently, Optuna supports MINIMIZE only.")
    else
      .ok d

/-! ## FrozenTrial and the best-trial accessors

structs.FrozenTrial lives outside src/; its record shape is modelled from
the spec: identifier, state, value, parameter dict, per-step intermediate
values, user/system attribute dicts, timestamps, plus an internal-only
field excluded from tabular export. -/

/-- An inner key of a nested trial dict: parameter/attribute dicts are
keyed by strings, the per-step intermediate values by integer step
numbers.  The empty string key marks a non-nested column. -/
inductive IKey where
  | str : String → IKey
  | num : Nat → IKey
deriving DecidableEq, Repr

/-- A scalar cell in the exported table. -/
inductive Cell where
  | nat : Nat → Cell
  | st : TrialState → Cell
  | float : PyFloat → Cell
  | str : String → Cell
  | pyNone : Cell
deriving DecidableEq, Repr

/-- A field of the trial record: either a scalar or a nested dict. -/
inductive FieldVal where
  | scalar : Cell → FieldVal
  | dict : List (IKey × Cell) → FieldVal
deriving DecidableEq, Repr

/-- Modelled from the spec: the immutable persisted trial record
(structs.FrozenTrial, not in src/) with its fields in canonical declaration
order as the spec lists them. -/
structure FrozenTrial where
  trial_id : Nat
  state : TrialState
  value : Option PyFloat
  params : List (IKey × Cell)
  intermediate_values : List (IKey × Cell)
  user_attrs : List (IKey × Cell)
  system_attrs : List (IKey × Cell)
  datetime_start : Option Nat
  datetime_complete : Option Nat
  params_in_internal_repr : List (IKey × Cell)
deriving DecidableEq, Repr

/-- The canonical field declaration order (FrozenTrial._fields). -/
def FrozenTrial.fields : List String :=
  ["trial_id", "state", "value", "params", "intermediate_values",
   "user_attrs", "system_attrs", "datetime_start", "datetime_complete",
   "params_in_internal_repr"]

/-- The internal-only fields excluded from tabular export
(FrozenTrial.internal_fields). -/
def FrozenTrial.internal_fields : List String :=
  ["params_in_internal_repr"]

/-- An optional float as a table cell (None becomes a null cell). -/
def cellOfOptFloat : Option PyFloat → Cell
  | some f => .float f
  | Option.none => .pyNone

/-- An optional timestamp as a table cell. -/
def cellOfOptNat : Option Nat → Cell
  | some n => .nat n
  | Option.none => .pyNone

/-- FrozenTrial._asdict(): the ordered (field name, field value) pairs of
the record, in canonical declaration order. -/
def FrozenTrial.asdict (t : FrozenTrial) : List (String × FieldVal) :=
  [("trial_id", .scalar (.nat t.trial_id)),
   ("state", .scalar (.st t.state)),
   ("value", .scalar (cellOfOptFloat t.value)),
   ("params", .dict t.params),
   ("intermediate_values", .dict t.intermediate_values),
   ("user_attrs", .dict t.user_attrs),
   ("system_attrs", .dict t.system_attrs),
   ("datetime_start", .scalar (cellOfOptNat t.datetime_start)),
   ("datetime_complete", .scalar (cellOfOptNat t.datetime_complete)),
   ("params_in_internal_repr", .dict t.params_in_internal_repr)]

/-- A total Boolean order on PyFloat used only by the best-trial query:
negative infinity below finite values below positive infinity below NaN. -/
def PyFloat.rank : PyFloat → Nat
  | .neginf => 0
  | .fin _ => 1
  | .inf => 2
  | .nan => 3

/-- Boolean comparison on PyFloat for the best-trial query. -/
def pyFloatLEb (a b : PyFloat) : Bool :=
  match a, b with
  | .fin x, .fin y => x ≤ y
  | _, _ => a.rank ≤ b.rank

/-- A trial value with None treated as NaN (largest) for the min scan. -/
def valueOrNan : Option PyFloat → PyFloat
  | some f => f
  | Option.none => .nan

/-- The completed trials of a study. -/
def completedTrials (trials : List FrozenTrial) : List FrozenTrial :=
  trials.filter fun t => t.state = .complete

/-- Modelled from the spec: Storage.get_best_trial (the Storage backend is
not in src/) returns the trial with minimum recorded value among the
completed trials of the study, and raises a no-completed-trials ValueError
when no completed trial exists. -/
def getBestTrial (trials : List FrozenTrial) : Except String FrozenTrial :=
  match completedTrials trials with
  | [] => .error "No trials are completed yet."
  | t :: ts =>
    .ok (ts.foldl
      (fun best u =>
        if pyFloatLEb (valueOrNan best.value) (valueOrNan u.value) then best
        else u)
      t)

/-- Study.best_trial: delegates to Storage.get_best_trial. -/
def Study.best_trial (trials : List FrozenTrial) : Except String FrozenTrial :=
  getBestTrial trials

/-- Study.best_value: reads best_trial.value and raises ValueError when it
is None. -/
def Study.best_value (trials : List FrozenTrial) : Except String PyFloat :=
  match Study.best_trial trials with
  | .error m => .error m
  | .ok t =>
    match t.value with
    | Option.none => .error "No trials are completed yet."
    | some v => .ok v

/-- Study.best_params: reads best_trial.params (an exception from
best_trial propagates). -/
def Study.best_params (trials : List FrozenTrial) :
    Except String (List (IKey × Cell)) :=
  (Study.best_trial trials).map FrozenTrial.params

/-! ## Tabular export (Study.trials_dataframe) -/

/-- The empty inner key used for non-nested fields. -/
def nonNestedField : IKey := .str ""

/-- The flattened record built for one trial by the loop body of
trials_dataframe: internal fields are skipped, dict fields contribute one
(field, inner key) column per entry, other fields one (field, empty)
column. -/
def recordOf (t : FrozenTrial) : List ((String × IKey) × Cell) :=
  t.asdict.foldr
    (fun fv acc =>
      if FrozenTrial.internal_fields.contains fv.1 then acc
      else
        match fv.2 with
        | .scalar c => ((fv.1, nonNestedField), c) :: acc
        | .dict d => d.map (fun kc => ((fv.1, kc.1), kc.2)) ++ acc)
    []

/-- The rows of the exported table: one flattened record per trial. -/
def dfRecords (trials : List FrozenTrial) : List (List ((String × IKey) × Cell)) :=
  trials.map recordOf

/-- The column keys contributed by one trial. -/
def trialColKeys (t : FrozenTrial) : List (String × IKey) :=
  (recordOf t).map Prod.fst

/-- column_agg[f]: the set of column keys with outer field f accumulated
over all trials, as a deduplicated list. -/
def columnAgg (trials : List FrozenTrial) (f : String) : List (String × IKey) :=
  (((trials.map trialColKeys).flatten).filter fun k => k.1 = f).dedup

/-- Boolean comparison on inner keys: numeric step keys among themselves,
string keys among themselves (cross-type order is arbitrary; one
column_agg set never mixes key types). -/
def ikeyLEb : IKey → IKey → Bool
  | .num x, .num y => decide (x ≤ y)
  | .str x, .str y => decide (x ≤ y)
  | .num _, .str _ => true
  | .str _, .num _ => false

/-- The comparison Python's sorted applies inside one column_agg set: the
keys there share their outer field, so the lexicographic tuple order
reduces to the order on the inner key. -/
def colLE (a b : String × IKey) : Prop :=
  ikeyLEb a.2 b.2 = true

instance : DecidableRel colLE := fun a b => by
  unfold colLE
  exact inferInstance

instance : IsTotal (String × IKey) colLE where
  total a b := by
    unfold colLE
    rcases a with ⟨_, x | x⟩ <;> rcases b with ⟨_, y | y⟩
    · rcases le_total x y with h | h
      · exact Or.inl (by simp [ikeyLEb, h])
      · exact Or.inr (by simp [ikeyLEb, h])
    · exact Or.inr (by simp [ikeyLEb])
    · exact Or.inl (by simp [ikeyLEb])
    · rcases Nat.le_total x y with h | h
      · exact Or.inl (by simp [ikeyLEb, h])
      · exact Or.inr (by simp [ikeyLEb, h])

instance : IsTrans (String × IKey) colLE where
  trans a b c hab hbc := by
    unfold colLE at hab hbc ⊢
    rcases a with ⟨_, x | x⟩ <;> rcases b with ⟨_, y | y⟩ <;>
      rcases c with ⟨_, z | z⟩ <;>
      simp only [ikeyLEb, decide_eq_true_eq] at hab hbc ⊢ <;>
      first
        | rfl
        | exact le_trans hab hbc
        | exact (Bool.false_ne_true hab).elim
        | exact (Bool.false_ne_true hbc).elim

/-- sorted(column_agg[f]): the column keys of one field, sorted. -/
def sortedGroup (trials : List FrozenTrial) (f : String) : List (String × IKey) :=
  List.insertionSort colLE (columnAgg trials f)

/-- The table columns: for each field in canonical declaration order, the
sorted column_agg set of that field (sum(sorted(column_agg[k]) for k in
FrozenTrial._fields, [])). -/
def dfColumns (trials : List FrozenTrial) : List (String × IKey) :=
  (FrozenTrial.fields.map (sortedGroup trials)).flatten

/-! ## Theorems for the claims -/

/-- Claim C7: construction with direction set to the maximize literal raises a
configuration error immediately at construction time, and construction rejects
any direction string that is not one of the two recognized literal values. -/
theorem C7_construction_direction (studyName d : String) :
    (∃ m, studyInitDirection studyName "maximize" = Except.error m) ∧
    (d ≠ "minimize" → d ≠ "maximize" → ∃ m, parseDirection d = Except.error m) ∧
    (d ≠ "minimize" → ∃ m, studyInitDirection studyName d = Except.error m) := by
  refine ⟨⟨_, rfl⟩, ?_, ?_⟩
  · intro h1 h2
    refine ⟨"Please set either minimize or maximize to direction.", ?_⟩
    unfold parseDirection
    rw [if_neg h1, if_neg h2]
  · intro h1
    by_cases h2 : d = "maximize"
    · subst h2
      exact ⟨_, rfl⟩
    · refine ⟨"Please set either minimize or maximize to direction.", ?_⟩
      unfold studyInitDirection parseDirection
      rw [if_neg h1, if_neg h2]

/-- Witness for C7 at the concrete unrecognized direction string. -/
theorem C7_construction_direction_witness :
    ("foo" : String) ≠ "minimize" ∧
    (∃ m, studyInitDirection "s" "foo" = Except.error m) :=
  ⟨by decide, (C7_construction_direction "s" "foo").2.2 (by decide)⟩

/-- Claim C6: the -1 sentinel resolves to the CPU count, the worker count is
clamped down to the trial-count limit, and a zero trial-count limit enqueues
no work at all. -/
theorem C6_worker_resolution (nJobs : Int) (cpu N : Nat) :
    resolveNJobs (-1) cpu = (cpu : Int) ∧
    (optimizeParallel nJobs cpu N).1 ≤ N ∧
    ((N : Int) ≤ resolveNJobs nJobs cpu → (optimizeParallel nJobs cpu N).1 = N) ∧
    (optimizeParallel nJobs cpu 0).2 = 0 := by
  refine ⟨rfl, ?_, ?_, rfl⟩
  · unfold optimizeParallel
    split <;>
      exact Int.toNat_le.mpr (min_le_right _ _)
  · intro h
    have hm : min (resolveNJobs nJobs cpu) (N : Int) = (N : Int) := min_eq_right h
    unfold optimizeParallel
    split <;> simp [hm]

/-- Witness for C6: eight requested workers are clamped down to a limit of
three trials. -/
theorem C6_worker_resolution_witness :
    (3 : Int) ≤ resolveNJobs 8 4 ∧ (optimizeParallel 8 4 3).1 = 3 :=
  ⟨by decide, (C6_worker_resolution 8 4 3).2.2.1 (by decide)⟩

/-- Claim C10: an objective that raises the pruning signal is always recorded
PRUNED, whatever the catch filter matches, because the pruning except clause
is tested first. -/
theorem C10_pruned_precedes_catch (tid : Nat) (c : Exc → Bool) (e : Exc)
    (h : e.pruned = true) :
    runTrial tid c (ObjResult.raise e) =
      Except.ok (TrialState.pruned, [StorageCall.setTrialState tid TrialState.pruned]) := by
  simp [runTrial, h]

/-- Witness for C10: a pruning exception is recorded PRUNED even under the
default catch filter that matches every exception. -/
theorem C10_pruned_precedes_catch_witness :
    ((fun (_ : Exc) => true) ⟨true, "early stop"⟩ = true) ∧
    runTrial 0 (fun _ => true) (ObjResult.raise ⟨true, "early stop"⟩) =
      Except.ok (TrialState.pruned, [StorageCall.setTrialState 0 TrialState.pruned]) :=
  ⟨rfl, C10_pruned_precedes_catch 0 (fun _ => true) ⟨true, "early stop"⟩ rfl⟩

/-- Claim C8: the Trial Runner returns the Trial handle exactly in the
classified cases (every normal return, a pruning exception, a caught
exception) and propagates the exception exactly when it is neither the
pruning signal nor matched by the catch filter. -/
theorem C8_return_vs_propagate (tid : Nat) (c : Exc → Bool) (obj : ObjResult) :
    (resultReturned (runTrial tid c obj) =
      match obj with
      | .ret _ => true
      | .raise e => e.pruned || c e) ∧
    (∀ e, obj = ObjResult.raise e → e.pruned = false → c e = false →
      runTrial tid c obj = Except.error e) := by
  constructor
  · cases obj with
    | ret v =>
      simp only [runTrial]
      cases hc : pyFloatCast v with
      | none => rfl
      | some f => by_cases hn : f.isNan <;> simp [hn, resultReturned]
    | raise e =>
      by_cases hp : e.pruned <;> by_cases hcat : c e <;>
        simp [runTrial, resultReturned, hp, hcat]
  · rintro e rfl hp hcat
    simp [runTrial, hp, hcat]

/-- Witness for C8: an uncaught, non-pruning exception propagates out of the
Trial Runner. -/
theorem C8_return_vs_propagate_witness :
    runTrial 0 (fun e => e.msg == "tolerated") (ObjResult.raise ⟨false, "boom"⟩) =
      Except.error ⟨false, "boom"⟩ :=
  (C8_return_vs_propagate 0 (fun e => e.msg == "tolerated")
      (ObjResult.raise ⟨false, "boom"⟩)).2
    ⟨false, "boom"⟩ rfl rfl (by decide)

/-- Claim C5: with no completed trial, each of the best-trial, best-value and
best-params accessors raises a no-completed-trials error. -/
theorem C5_best_accessors_error (trials : List FrozenTrial)
    (h : completedTrials trials = []) :
    (∃ m, Study.best_trial trials = Except.error m) ∧
    (∃ m, Study.best_value trials = Except.error m) ∧
    (∃ m, Study.best_params trials = Except.error m) := by
  have hb : getBestTrial trials = Except.error "No trials are completed yet." := by
    unfold getBestTrial
    rw [h]
  refine ⟨⟨"No trials are completed yet.", ?_⟩,
    ⟨"No trials are completed yet.", ?_⟩,
    ⟨"No trials are completed yet.", ?_⟩⟩
  · unfold Study.best_trial
    rw [hb]
  · unfold Study.best_value Study.best_trial
    rw [hb]
  · unfold Study.best_params Study.best_trial
    rw [hb]
    rfl

/-- Witness for C5 on a study holding one still-running trial. -/
theorem C5_best_accessors_error_witness :
    (∃ m, Study.best_trial
      [⟨0, TrialState.running, Option.none, [], [], [], [], Option.none, Option.none, []⟩] =
        Except.error m) ∧
    (∃ m, Study.best_value
      [⟨0, TrialState.running, Option.none, [], [], [], [], Option.none, Option.none, []⟩] =
        Except.error m) ∧
    (∃ m, Study.best_params
      [⟨0, TrialState.running, Option.none, [], [], [], [], Option.none, Option.none, []⟩] =
        Except.error m) :=
  C5_best_accessors_error _ rfl

/-- The coordinator top-up loop enqueues exactly its remaining budget. -/
theorem coordTopUp_total (r : Nat) : ∀ n, coordTopUp r n = n + r := by
  induction r with
  | zero => intro n; rfl
  | succ r ih =>
    intro n
    have hstep : coordTopUp (r + 1) n = coordTopUp r (n + 1) := rfl
    rw [hstep, ih]
    omega

/-- Successive atomic allocations yield the consecutive id range. -/
theorem allocatedIds_eq_range (n : Nat) :
    ∀ start, allocatedIds start n = List.range' start n := by
  induction n with
  | zero => intro start; rfl
  | succ n ih =>
    intro start
    show start :: allocatedIds (start + 1) n = _
    rw [ih]
    rfl

/-- Claim C3: a parallel run with trial-count limit N and no timeout enqueues
exactly N continue tokens (one trial each): the worker seeds plus the
additionally admitted tokens sum to exactly the limit, never exceeding it,
and the N atomic id allocations yield pairwise distinct trial ids. -/
theorem C3_parallel_trial_count (nJobs : Int) (cpu N start : Nat) :
    (optimizeParallel nJobs cpu N).2 = N ∧
    (optimizeParallel nJobs cpu N).2 ≤ N ∧
    allocatedIds start N = List.range' start N ∧
    (allocatedIds start N).Nodup := by
  have hmain : (optimizeParallel nJobs cpu N).2 = N := by
    unfold optimizeParallel coordLoop
    by_cases h : N = 0
    · simp [h]
    · have hs : (min (resolveNJobs nJobs cpu) (N : Int)).toNat ≤ N :=
        Int.toNat_le.mpr (min_le_right _ _)
      simp only [h, if_false]
      rw [coordTopUp_total]
      omega
  refine ⟨hmain, le_of_eq hmain, allocatedIds_eq_range N start, ?_⟩
  rw [allocatedIds_eq_range N start]
  exact List.nodup_range' start N

/-- With timeout = None the sequential loop runs down its whole remaining
budget and stops on the trial-count check. -/
theorem seqLoop_none_total (elapsed : Nat → Rat) (r : Nat) :
    ∀ ran, seqLoop Option.none elapsed r ran = (ran + r, StopReason.countLimit) := by
  induction r with
  | zero => intro ran; rfl
  | succ r ih =>
    intro ran
    have hstep : seqLoop Option.none elapsed (r + 1) ran =
        seqLoop Option.none elapsed r (ran + 1) := rfl
    rw [hstep, ih]
    simp [Prod.ext_iff]
    omega

/-- If the sequential loop stopped on the timeout check, it ran strictly
fewer trials than its remaining budget allowed (the trial-count check comes
first and wins once the budget is exhausted). -/
theorem seqLoop_timeout_lt (t : Rat) (elapsed : Nat → Rat) (r : Nat) :
    ∀ ran, (seqLoop (some t) elapsed r ran).2 = StopReason.timeLimit →
      (seqLoop (some t) elapsed r ran).1 < ran + r := by
  induction r with
  | zero =>
    intro ran h
    exact absurd h (by simp [seqLoop])
  | succ r ih =>
    intro ran h
    by_cases he : elapsed ran ≥ t
    · have hv : seqLoop (some t) elapsed (r + 1) ran = (ran, StopReason.timeLimit) := by
        simp [seqLoop, he]
      rw [hv]
      omega
    · have hstep : seqLoop (some t) elapsed (r + 1) ran =
          seqLoop (some t) elapsed r (ran + 1) := by
        simp [seqLoop, he]
      rw [hstep] at h ⊢
      have := ih (ran + 1) h
      omega

/-- Claim C4: with a trial-count limit N and timeout None the sequential
scheduler runs exactly N trials, stopping on the trial-count check; and with
a timeout set, whenever all N trials ran the stop was the trial-count check,
checked before the timeout check. -/
theorem C4_sequential_exact_count (N : Nat) (t : Rat) (elapsed : Nat → Rat) :
    optimizeSequential N Option.none elapsed = (N, StopReason.countLimit) ∧
    ((optimizeSequential N (some t) elapsed).1 = N →
      (optimizeSequential N (some t) elapsed).2 = StopReason.countLimit) := by
  constructor
  · unfold optimizeSequential
    rw [seqLoop_none_total]
    simp
  · intro h
    unfold optimizeSequential at h ⊢
    cases hr : (seqLoop (some t) elapsed N 0).2 with
    | countLimit => rfl
    | timeLimit =>
      have := seqLoop_timeout_lt t elapsed N 0 hr
      omega

/-- Witness for C4: two trials under a not-yet-elapsed timeout run to the
count limit and stop on the count check. -/
theorem C4_sequential_exact_count_witness :
    (optimizeSequential 2 (some 5) (fun _ => 0)).1 = 2 ∧
    (optimizeSequential 2 (some 5) (fun _ => 0)).2 = StopReason.countLimit :=
  ⟨by decide, (C4_sequential_exact_count 2 5 (fun _ => 0)).2 (by decide)⟩

/-- Claim C1 counterexample: an objective returning positive infinity
converts to a float that is not finite, yet the trial is recorded COMPLETE
(the source only rejects NaN, never the infinities), refuting the claimed
equivalence between COMPLETE and conversion to a finite, non-NaN float. -/
theorem C1_counterexample :
    ¬ (resultState (runTrial 0 (fun _ => true)
          (ObjResult.ret (PyValue.float PyFloat.inf))) = some TrialState.complete ↔
        (pyFloatCast (PyValue.float PyFloat.inf)).any
          (fun f => f.isFinite && !f.isNan) = true) := by
  decide

/-- Claim C1 (amended): the trial is recorded COMPLETE iff the returned value
converts to a non-NaN float (finiteness is not checked: infinities are
recorded COMPLETE); in that case the stored trial value equals exactly the
converted float; values that fail float conversion or convert to NaN are
recorded FAIL instead. -/
theorem C1_complete_iff_nonnan (tid : Nat) (c : Exc → Bool) (v : PyValue) :
    (resultState (runTrial tid c (ObjResult.ret v)) = some TrialState.complete ↔
      (pyFloatCast v).any (fun f => !f.isNan) = true) ∧
    (∀ f, pyFloatCast v = some f → f.isNan = false →
      storedValue tid (resultCalls (runTrial tid c (ObjResult.ret v))) = some f) ∧
    ((pyFloatCast v).any (fun f => !f.isNan) = false →
      resultState (runTrial tid c (ObjResult.ret v)) = some TrialState.fail) := by
  rcases hc : pyFloatCast v with _ | f
  · refine ⟨?_, ?_, ?_⟩
    · simp [runTrial, hc, resultState, Option.any]
    · intro f hf
      cases hf
    · intro _
      simp [runTrial, hc, resultState]
  · refine ⟨?_, ?_, ?_⟩
    · by_cases hn : f.isNan <;>
        simp [runTrial, hc, hn, resultState, Option.any]
    · intro g hg hn
      cases hg
      simp [runTrial, hc, hn, resultCalls, storedValue]
    · intro hall
      simp [Option.any] at hall
      simp [runTrial, hc, hall, resultState]

/-- Witness for C1 (amended): an objective returning the float 3 is recorded
COMPLETE with stored value exactly 3. -/
theorem C1_complete_iff_nonnan_witness :
    storedValue 0 (resultCalls (runTrial 0 (fun _ => true)
      (ObjResult.ret (PyValue.float (PyFloat.fin 3))))) = some (PyFloat.fin 3) :=
  (C1_complete_iff_nonnan 0 (fun _ => true) (PyValue.float (PyFloat.fin 3))).2.1
    (PyFloat.fin 3) rfl rfl

/-- Claim C2 counterexample: for a trial failed through the catch filter the
source persists the FAIL state first and only afterwards records the
fail_reason system attribute, so the claimed ordering (reason strictly
before the state transition, never after) is violated. -/
theorem C2_counterexample :
    resultState (runTrial 0 (fun _ => true)
        (ObjResult.raise ⟨false, "boom"⟩)) = some TrialState.fail ∧
    noFailReasonAfterFailState (resultCalls (runTrial 0 (fun _ => true)
        (ObjResult.raise ⟨false, "boom"⟩))) = false := by
  decide

/-- Claim C2 (amended): for every trial classified FAIL, the failure reason
is recorded as a system attribute immediately after (not before) the FAIL
state transition is persisted: the Storage sequence is set_trial_state(FAIL)
directly followed by set_trial_system_attr(fail_reason). -/
theorem C2_fail_reason_after_state (tid : Nat) (c : Exc → Bool) (obj : ObjResult)
    (h : resultState (runTrial tid c obj) = some TrialState.fail) :
    ∃ m, resultCalls (runTrial tid c obj) =
      [StorageCall.setTrialState tid TrialState.fail,
       StorageCall.setTrialSystemAttr tid "fail_reason" m] := by
  cases obj with
  | raise e =>
    by_cases hp : e.pruned
    · simp [runTrial, resultState, hp] at h
    · by_cases hcat : c e
      · exact ⟨failMsgExc e, by simp [runTrial, hp, hcat, resultCalls]⟩
      · simp [runTrial, resultState, hp, hcat] at h
  | ret v =>
    rcases hc : pyFloatCast v with _ | f
    · exact ⟨failMsgCast v, by simp [runTrial, hc, resultCalls]⟩
    · by_cases hn : f.isNan
      · exact ⟨failMsgNan, by simp [runTrial, hc, hn, resultCalls]⟩
      · simp [runTrial, resultState, hc, hn] at h

/-- Witness for C2 (amended) on a concrete caught exception. -/
theorem C2_fail_reason_after_state_witness :
    ∃ m, resultCalls (runTrial 0 (fun _ => true)
        (ObjResult.raise ⟨false, "boom"⟩)) =
      [StorageCall.setTrialState 0 TrialState.fail,
       StorageCall.setTrialSystemAttr 0 "fail_reason" m] :=
  C2_fail_reason_after_state 0 (fun _ => true) (ObjResult.raise ⟨false, "boom"⟩)
    (by decide)

/-- The flattened record of one trial, in closed form: the three leading
scalar fields as (field, empty-key) columns, each nested dict flattened to
(field, inner-key) columns, the two timestamp scalars, and no column at all
for the internal-only field. -/
theorem recordOf_eq (t : FrozenTrial) :
    recordOf t =
      [(("trial_id", nonNestedField), Cell.nat t.trial_id),
       (("state", nonNestedField), Cell.st t.state),
       (("value", nonNestedField), cellOfOptFloat t.value)]
      ++ (t.params.map (fun kc => (("params", kc.1), kc.2))
      ++ (t.intermediate_values.map (fun kc => (("intermediate_values", kc.1), kc.2))
      ++ (t.user_attrs.map (fun kc => (("user_attrs", kc.1), kc.2))
      ++ (t.system_attrs.map (fun kc => (("system_attrs", kc.1), kc.2))
      ++ [(("datetime_start", nonNestedField), cellOfOptNat t.datetime_start),
          (("datetime_complete", nonNestedField), cellOfOptNat t.datetime_complete)])))) := rfl

/-- No record entry carries an internal-only outer field. -/
theorem records_all_public (t : FrozenTrial) :
    (recordOf t).all
      (fun e => !(FrozenTrial.internal_fields.contains e.1.1)) = true := by
  rw [List.all_eq_true]
  intro e he
  rw [recordOf_eq] at he
  simp only [List.mem_append, List.mem_cons, List.mem_map, List.mem_singleton,
    List.not_mem_nil, or_false] at he
  obtain (rfl | rfl | rfl) | ⟨kc, hkc, rfl⟩ | ⟨kc, hkc, rfl⟩ | ⟨kc, hkc, rfl⟩ |
    ⟨kc, hkc, rfl⟩ | rfl | rfl := he <;> rfl

/-- Every key aggregated under column_agg[f] has outer field f. -/
theorem mem_columnAgg_outer {trials : List FrozenTrial} {f : String}
    {k : String × IKey} (h : k ∈ columnAgg trials f) : k.1 = f := by
  unfold columnAgg at h
  rw [List.mem_dedup, List.mem_filter] at h
  exact of_decide_eq_true h.2

/-- Sorting preserves the outer-field invariant of a column group. -/
theorem mem_sortedGroup_outer {trials : List FrozenTrial} {f : String}
    {k : String × IKey} (h : k ∈ sortedGroup trials f) : k.1 = f :=
  mem_columnAgg_outer
    ((List.perm_insertionSort colLE (columnAgg trials f)).mem_iff.mp h)

/-- No trial contributes a column key with the internal-only outer field. -/
theorem trialColKeys_ne_internal {t : FrozenTrial} {k : String × IKey}
    (h : k ∈ trialColKeys t) : k.1 ≠ "params_in_internal_repr" := by
  have hall := records_all_public t
  rw [List.all_eq_true] at hall
  unfold trialColKeys at h
  rw [List.mem_map] at h
  obtain ⟨e, he, rfl⟩ := h
  have := hall e he
  simp [FrozenTrial.internal_fields] at this
  simpa using this

/-- The column_agg set of the internal-only field stays empty. -/
theorem columnAgg_internal (trials : List FrozenTrial) :
    columnAgg trials "params_in_internal_repr" = [] := by
  unfold columnAgg
  rw [List.dedup_eq_nil, List.filter_eq_nil_iff]
  intro k hk
  rw [List.mem_flatten] at hk
  obtain ⟨l, hl, hkl⟩ := hk
  rw [List.mem_map] at hl
  obtain ⟨t, _, rfl⟩ := hl
  have := trialColKeys_ne_internal hkl
  simp [this]

/-- Filtering the concatenation of per-field groups by one outer field
recovers exactly that field's group, provided the field list is duplicate
free and each group only holds keys of its own field. -/
theorem flatten_filter_groups (g : String → List (String × IKey))
    (hg : ∀ f k, k ∈ g f → k.1 = f) :
    ∀ (L : List String) (f0 : String), L.Nodup →
      ((L.map g).flatten.filter fun col => col.1 == f0) =
        if f0 ∈ L then g f0 else [] := by
  intro L
  induction L with
  | nil =>
    intro f0 _
    simp
  | cons f L ih =>
    intro f0 hnd
    obtain ⟨hf, hnd2⟩ := List.nodup_cons.mp hnd
    rw [List.map_cons, List.flatten_cons, List.filter_append, ih f0 hnd2]
    by_cases h : f = f0
    · subst h
      rw [if_neg hf, if_pos (List.mem_cons_self f L)]
      rw [List.filter_eq_self.mpr fun a ha => beq_iff_eq.mpr (hg f a ha),
        List.append_nil]
    · have hfil : (g f).filter (fun col => col.1 == f0) = [] := by
        rw [List.filter_eq_nil_iff]
        intro a ha
        have ha1 := hg f a ha
        simp [ha1, h]
      rw [hfil, List.nil_append]
      by_cases h0 : f0 ∈ L
      · rw [if_pos h0, if_pos (List.mem_cons_of_mem f h0)]
      · have hnot : f0 ∉ f :: L := by
          simp only [List.mem_cons]
          rintro (rfl | hc)
          · exact h rfl
          · exact h0 hc
        rw [if_neg h0, if_neg hnot]

/-- The columns carrying one outer field are exactly that field's sorted
group (and empty for a name outside the record's fields). -/
theorem dfColumns_filter_eq (trials : List FrozenTrial) (f0 : String) :
    (dfColumns trials).filter (fun col => col.1 == f0) =
      if f0 ∈ FrozenTrial.fields then sortedGroup trials f0 else [] := by
  unfold dfColumns
  exact flatten_filter_groups (sortedGroup trials)
    (fun f k hk => mem_sortedGroup_outer hk) FrozenTrial.fields f0 (by decide)

/-- The exported columns are grouped contiguously by outer field in the
canonical declaration order of the trial record. -/
theorem dfColumns_grouping (trials : List FrozenTrial) :
    dfColumns trials =
      (FrozenTrial.fields.map fun f =>
        (dfColumns trials).filter fun col => col.1 == f).flatten := by
  have hmap : (FrozenTrial.fields.map fun f =>
      (dfColumns trials).filter fun col => col.1 == f) =
      FrozenTrial.fields.map (sortedGroup trials) :=
    List.map_congr_left fun f hf => by
      rw [dfColumns_filter_eq trials f, if_pos hf]
  rw [hmap]
  rfl

/-- Within each outer-field group the exported columns are sorted. -/
theorem dfColumns_group_sorted (trials : List FrozenTrial) (f0 : String) :
    List.Sorted colLE ((dfColumns trials).filter fun col => col.1 == f0) := by
  rw [dfColumns_filter_eq trials f0]
  by_cases h : f0 ∈ FrozenTrial.fields
  · rw [if_pos h]
    exact List.sorted_insertionSort colLE (columnAgg trials f0)
  · rw [if_neg h]
    exact List.sorted_nil

/-- No exported column carries an internal-only outer field. -/
theorem dfColumns_all_public (trials : List FrozenTrial) :
    (dfColumns trials).all
      (fun col => !(FrozenTrial.internal_fields.contains col.1)) = true := by
  rw [List.all_eq_true]
  intro col hcol
  unfold dfColumns at hcol
  rw [List.mem_flatten] at hcol
  obtain ⟨l, hl, hcl⟩ := hcol
  rw [List.mem_map] at hl
  obtain ⟨f, hf, rfl⟩ := hl
  have houter : col.1 = f := mem_sortedGroup_outer hcl
  by_cases hint : f = "params_in_internal_repr"
  · subst hint
    rw [show sortedGroup trials "params_in_internal_repr" =
        List.insertionSort colLE (columnAgg trials "params_in_internal_repr") from rfl,
      columnAgg_internal] at hcl
    simp at hcl
  · simp [FrozenTrial.internal_fields, houter, hint]

/-- Claim C9: tabular export produces one row per recorded trial; every
nested dict field flattens into columns keyed by (outer field, inner key)
and every non-nested field into a column keyed by (field, empty key);
internal-only fields are excluded from rows and columns; and the columns
are grouped by outer field in the canonical declaration order of the trial
record's fields and sorted within each group. -/
theorem C9_trials_dataframe (trials : List FrozenTrial) :
    (dfRecords trials).length = trials.length ∧
    (∀ t, recordOf t =
      [(("trial_id", nonNestedField), Cell.nat t.trial_id),
       (("state", nonNestedField), Cell.st t.state),
       (("value", nonNestedField), cellOfOptFloat t.value)]
      ++ (t.params.map (fun kc => (("params", kc.1), kc.2))
      ++ (t.intermediate_values.map (fun kc => (("intermediate_values", kc.1), kc.2))
      ++ (t.user_attrs.map (fun kc => (("user_attrs", kc.1), kc.2))
      ++ (t.system_attrs.map (fun kc => (("system_attrs", kc.1), kc.2))
      ++ [(("datetime_start", nonNestedField), cellOfOptNat t.datetime_start),
          (("datetime_complete", nonNestedField), cellOfOptNat t.datetime_complete)]))))) ∧
    (∀ t, (recordOf t).all
      (fun e => !(FrozenTrial.internal_fields.contains e.1.1)) = true) ∧
    dfColumns trials =
      (FrozenTrial.fields.map fun f =>
        (dfColumns trials).filter fun col => col.1 == f).flatten ∧
    (∀ f0, List.Sorted colLE ((dfColumns trials).filter fun col => col.1 == f0)) ∧
    (dfColumns trials).all
      (fun col => !(FrozenTrial.internal_fields.contains col.1)) = true :=
  ⟨by simp [dfRecords], fun t => recordOf_eq t, fun t => records_all_public t,
    dfColumns_grouping trials, fun f0 => dfColumns_group_sorted trials f0,
    dfColumns_all_public trials⟩

end Optuna
